import Mathlib

/-!
Verification of the streamlit-geomap component (a Streamlit custom component
wrapping the ArcGIS Maps SDK) against its natural-language specification.

The embedding translates the TypeScript source of
`src/frontend/src/GeomapComponent.tsx` (the authoritative component) and the
height helper of the `part_003` variant into pure Lean definitions:

* JavaScript/JSON values exchanged with the host are modelled by `JValue`;
  JS numbers are modelled as `Int` (no verified property depends on
  fractional or NaN behaviour, which is noted where relevant).
* Graphics mutated through references are modelled by a heap `Nat → Graphic`
  indexed by object identity.
* Stateful handlers become pure functions returning a new state together with
  a trace of `Effect`s (host messages, React state updates, scheduled work).
* Fallible SDK calls are modelled with `Except`; which call throws is chosen
  by an adversarial oracle, so theorems quantify over every throw pattern.
-/

/-- JSON values. JS numbers are modelled as integers. -/
inductive JValue where
  | jnull
  | jbool (b : Bool)
  | jnum (n : Int)
  | jstr (s : String)
  | jarr (elems : List JValue)
  | jobj (fields : List (String × JValue))

/-- Atomic (non-nested) JSON values, used for GeoJSON property maps. -/
inductive JAtom where
  | anull
  | abool (b : Bool)
  | anum (n : Int)
  | astr (s : String)
deriving DecidableEq

def JAtom.toJValue : JAtom → JValue
  | .anull => .jnull
  | .abool b => .jbool b
  | .anum n => .jnum n
  | .astr s => .jstr s

/-- An attribute map: GeoJSON `properties` and graphic `attributes`.
Values are modelled as atoms; none of the verified claims inspects nested
attribute values. -/
abbrev Attrs := List (String × JAtom)

def JValue.isAtom : JValue → Bool
  | .jarr _ => false
  | .jobj _ => false
  | _ => true

/-- A flat JSON object: a top-level object none of whose field values is
itself an object or an array. -/
def JValue.isFlatObject : JValue → Bool
  | .jobj fields => fields.all (fun kv => kv.2.isAtom)
  | _ => false

def jsonLookup : List (String × JValue) → String → Option JValue
  | [], _ => none
  | (k, v) :: rest, key => if k = key then some v else jsonLookup rest key

/-- The `event` field of a payload, when it is a string. -/
def eventTag : JValue → Option String
  | .jobj fields =>
      match jsonLookup fields "event" with
      | some (.jstr s) => some s
      | _ => none
  | _ => none

def hasTimestamp : JValue → Bool
  | .jobj fields => (jsonLookup fields "timestamp").isSome
  | _ => false

/-- JS truthiness of an optional string (`undefined` and `""` are falsy). -/
def strTruthy : Option String → Bool
  | some s => decide (s ≠ "")
  | none => false

/-- JS truthiness at the top level of a JSON value. -/
def JValue.truthy : JValue → Bool
  | .jnull => false
  | .jbool b => b
  | .jnum n => decide (n ≠ 0)
  | .jstr s => decide (s ≠ "")
  | .jarr _ => true
  | .jobj _ => true

def optJTruthy : Option JValue → Bool
  | some v => v.truthy
  | none => false

/-- The JS test `x === false` on an optional (possibly undefined) value. -/
def jsEqFalse : Option JValue → Bool
  | some (.jbool false) => true
  | _ => false

/-- JS `a || d` for an optional string default (falsy `a` selects `d`). -/
def jsStrOr : Option String → String → String
  | some s, d => if s = "" then d else s
  | none, d => d

/-! ## Height extraction (`extractNumericHeight`, part_003 lines 252-269) -/

/-- The `height` prop as received from the host: a number, a string, or a
value of any other type. -/
inductive HeightProp where
  | num (n : Int)
  | str (s : String)
  | other
deriving DecidableEq

def digitsToNat (cs : List Char) : Nat :=
  cs.foldl (fun a c => a * 10 + (c.toNat - 48)) 0

/-- JS `parseInt(s, 10)`: skip leading whitespace, read an optional sign,
then the longest decimal-digit prefix; `NaN` (here `none`) when there is no
digit. -/
def jsParseInt (s : String) : Option Int :=
  let cs := s.toList.dropWhile (fun c => c = ' ' || c = '\t' || c = '\n' || c = '\r')
  let signAndRest : Int × List Char :=
    match cs with
    | '-' :: rest => (-1, rest)
    | '+' :: rest => (1, rest)
    | _ => (1, cs)
  let ds := signAndRest.2.takeWhile (fun c => c.isDigit)
  if ds.isEmpty then none else some (signAndRest.1 * (digitsToNat ds : Int))

/-- `height.endsWith('px') ? height.slice(0, -2) : height`, computed over
the character list so that it evaluates by reduction. -/
def stripPx (s : String) : String :=
  match s.toList.reverse with
  | 'x' :: 'p' :: rest => String.mk rest.reverse
  | _ => s

/-- `extractNumericHeight` (part_003 lines 252-269): a number is returned
unchanged; a string is parsed with `parseInt` after stripping a `px` suffix
and the parse is kept only when it is `> 0`; anything else yields 400. -/
def extractNumericHeight : HeightProp → Int
  | .num n => n
  | .str s =>
      match jsParseInt (stripPx s) with
      | some v => if 0 < v then v else 400
      | none => 400
  | .other => 400

/-! ## GeoJSON processing (`processGeoJSON`, GeomapComponent.tsx 1043-1078) -/

/-- A point-style geometry as held by an ArcGIS graphic. `none` coordinates
model JS `undefined` (a destructuring of a too-short coordinate array). -/
structure GeomData where
  gtype : String
  longitude : Option Int
  latitude : Option Int
deriving DecidableEq

structure Outline where
  color : List Int
  width : Int
deriving DecidableEq

structure MarkerSymbol where
  color : List Int
  outline : Option Outline
  size : Option Int
deriving DecidableEq

/-- An ArcGIS graphic. `origSymbol` models the `__originalSymbol` expando
property set by the selection-highlight code (`none` = absent). -/
structure Graphic where
  symbol : Option MarkerSymbol
  origSymbol : Option MarkerSymbol
  attributes : Option Attrs
  geometry : Option GeomData
deriving DecidableEq

structure GeoGeometry where
  gtype : String
  coordinates : List Int

structure GeoFeature where
  ftype : String
  geometry : GeoGeometry
  properties : Option Attrs

structure GeoFeatureCollection where
  ctype : String
  features : List GeoFeature

/-- The symbol literal built for every GeoJSON point
(GeomapComponent.tsx 1057-1064). -/
def defaultMarkerSymbol : MarkerSymbol :=
  { color := [226, 119, 40]
    outline := some { color := [255, 255, 255], width := 2 }
    size := some 8 }

/-- The graphic built from one `Point` feature (GeomapComponent.tsx
1048-1071): longitude and latitude are destructured from
`coordinates[0]`/`coordinates[1]`, attributes are `properties || {}`. -/
def pointGraphicOfFeature (f : GeoFeature) : Graphic :=
  { symbol := some defaultMarkerSymbol
    origSymbol := none
    attributes := some (f.properties.getD [])
    geometry := some
      { gtype := "point"
        longitude := f.geometry.coordinates.get? 0
        latitude := f.geometry.coordinates.get? 1 } }

/-- `processGeoJSON` (GeomapComponent.tsx 1043-1078): a `forEach` over the
features pushing one graphic per feature whose `geometry.type === "Point"`. -/
def processGeoJSON (geojson : GeoFeatureCollection) : List Graphic :=
  geojson.features.foldl
    (fun acc f =>
      if f.geometry.gtype = "Point" then acc ++ [pointGraphicOfFeature f] else acc)
    []

/-! ## Feature layer creation (`createFeatureLayers`, GeomapComponent.tsx
491-550) -/

structure FeatureLayerConfig where
  url : Option String
  portal_item_id : Option String
  api_key : Option String
  oauth_token : Option String
  renderer : Option JValue
  label_info : Option JValue
  title : Option String
  visible : Option Bool

inductive LayerSource where
  | fromUrl (url : String)
  | fromPortalItem (id : String)
deriving DecidableEq

/-- The constructed ArcGIS `FeatureLayer`, restricted to the fields the
component sets. `customParameters` holds the oauth token when set. -/
structure FeatureLayer where
  source : LayerSource
  title : Option String
  visible : Option Bool
  renderer : Option JValue
  labelingInfo : Option JValue
  customParameters : Option String

/-- The `url` / `portal_item_id` selection (GeomapComponent.tsx 504-513):
a truthy `url` wins, else a truthy `portal_item_id`, else the config is
skipped with a warning. -/
def layerSourceOf (c : FeatureLayerConfig) : Option LayerSource :=
  if strTruthy c.url then c.url.map .fromUrl
  else if strTruthy c.portal_item_id then c.portal_item_id.map .fromPortalItem
  else none

/-- The optional fields copied onto the layer config
(GeomapComponent.tsx 515-539). `title`, `renderer`, `label_info` and
`oauth_token` are copied when truthy; `visible` when `!== undefined`. -/
def mkFeatureLayer (c : FeatureLayerConfig) (src : LayerSource) : FeatureLayer :=
  { source := src
    title := if strTruthy c.title then c.title else none
    visible := c.visible
    renderer := if optJTruthy c.renderer then c.renderer else none
    labelingInfo := if optJTruthy c.label_info then c.label_info else none
    customParameters := if strTruthy c.oauth_token then c.oauth_token else none }

/-- `createFeatureLayers` (GeomapComponent.tsx 491-550). The second
component threads `esriConfig.apiKey`, which is set whenever a config
carries a truthy `api_key` (even a config later skipped). -/
def createFeatureLayers :
    List FeatureLayerConfig → Option String → List FeatureLayer × Option String
  | [], apiKey => ([], apiKey)
  | c :: rest, apiKey =>
      let apiKey1 := if strTruthy c.api_key then c.api_key else apiKey
      match layerSourceOf c with
      | none => createFeatureLayers rest apiKey1
      | some src =>
          let tail := createFeatureLayers rest apiKey1
          (mkFeatureLayer c src :: tail.1, tail.2)

/-! ## Host payloads (`Streamlit.setComponentValue` call sites) -/

def coordJ : Option Int → JValue
  | some n => .jnum n
  | none => .jnull

/-- The `featureData` / `hoveredFeature` object built from a hit-test
graphic (GeomapComponent.tsx 600-608 and 655-663). -/
structure FeatureData where
  attributes : Attrs
  gtype : String
  coords : Option (Option Int × Option Int)
deriving DecidableEq

/-- Build `featureData` from a graphic and its geometry:
`attributes || {}`, the SDK geometry type, and `[longitude, latitude]`
when the type is `"point"`, else `null` coordinates. -/
def featureDataOf (g : Graphic) (gd : GeomData) : FeatureData :=
  { attributes := g.attributes.getD []
    gtype := gd.gtype
    coords := if gd.gtype = "point" then some (gd.longitude, gd.latitude) else none }

def attrsToJ (a : Attrs) : JValue :=
  .jobj (a.map (fun kv => (kv.1, kv.2.toJValue)))

def FeatureData.toJValue (f : FeatureData) : JValue :=
  .jobj [("attributes", attrsToJ f.attributes),
         ("geometry", .jobj
            [("type", .jstr f.gtype),
             ("coordinates",
                match f.coords with
                | some lonLat => .jarr [coordJ lonLat.1, coordJ lonLat.2]
                | none => .jnull)])]

/-- The `map_clicked` payload (GeomapComponent.tsx 616-623). -/
def mapClickedPayload (mapPt : Int × Int) (screen : Int × Int)
    (feature : Option FeatureData) (now : String) : JValue :=
  .jobj [("event", .jstr "map_clicked"),
         ("coordinates", .jarr [.jnum mapPt.1, .jnum mapPt.2]),
         ("screenPoint", .jobj [("x", .jnum screen.1), ("y", .jnum screen.2)]),
         ("feature", match feature with | some f => f.toJValue | none => .jnull),
         ("hasFeature", .jbool feature.isSome),
         ("timestamp", .jstr now)]

/-- The `feature_hovered` payload (GeomapComponent.tsx 684-688). -/
def featureHoveredPayload (f : FeatureData) (now : String) : JValue :=
  .jobj [("event", .jstr "feature_hovered"),
         ("feature", f.toJValue),
         ("timestamp", .jstr now)]

/-- One entry of `selectedFeatures` (GeomapComponent.tsx 730-738):
unlike the hit-test path, `geometry` may be `null` here. -/
def selectedFeatureJson (g : Graphic) : JValue :=
  .jobj [("attributes", attrsToJ (g.attributes.getD [])),
         ("geometry",
            match g.geometry with
            | some gd => .jobj
                [("type", .jstr gd.gtype),
                 ("coordinates",
                    if gd.gtype = "point" then .jarr [coordJ gd.longitude, coordJ gd.latitude]
                    else .jnull)]
            | none => .jnull)]

/-- The `feature_selected` payload (GeomapComponent.tsx 728-741). -/
def featureSelectedPayload (gs : List Graphic) (now : String) : JValue :=
  .jobj [("event", .jstr "feature_selected"),
         ("selectedFeatures", .jarr (gs.map selectedFeatureJson)),
         ("selectionCount", .jnum gs.length),
         ("timestamp", .jstr now)]

/-- The `map_loaded` payload (GeomapComponent.tsx 1008-1016). -/
def mapLoadedPayload (basemap : String) (center : Int × Int) (zoom : Int)
    (featuresRendered : Int) (layersLoaded : Int) (now : String) : JValue :=
  .jobj [("event", .jstr "map_loaded"),
         ("basemap", .jstr basemap),
         ("center", .jarr [.jnum center.1, .jnum center.2]),
         ("zoom", .jnum zoom),
         ("featuresRendered", .jnum featuresRendered),
         ("featureLayersLoaded", .jnum layersLoaded),
         ("timestamp", .jstr now)]

/-- The `error` payload (GeomapComponent.tsx 1034-1038). -/
def errorPayload (msg : String) (now : String) : JValue :=
  .jobj [("event", .jstr "error"),
         ("error", .jstr msg),
         ("timestamp", .jstr now)]

def allowedEventTags : List String :=
  ["map_clicked", "feature_hovered", "feature_selected", "map_loaded", "error"]

/-- A payload carrying an event tag from the documented set and a
timestamp field. -/
def goodPayload (p : JValue) : Bool :=
  (match eventTag p with
   | some t => allowedEventTags.contains t
   | none => false) && hasTimestamp p

/-! ## Effects and the selection / hover / click handlers -/

/-- Scheduled work (the argument of a `setTimeout`). -/
inductive STask where
  | cleanupTask
  | retryTask (retries : Nat)
deriving DecidableEq

/-- Observable actions of the component, in program order. -/
inductive Effect where
  | emit (payload : JValue)
  | setReady
  | setStateError (msg : String)
  | setStateMapLoaded
  | setStateSelected (ids : List Nat)
  | createMapView
  | addHandlers
  | scheduleRetry (retries : Nat)
  | ranCleanup

/-- Graphics are mutated through references; the heap maps an object
identity to the graphic's current field values. -/
abbrev Heap := Nat → Graphic

def heapSet (h : Heap) (i : Nat) (g : Graphic) : Heap :=
  fun j => if j = i then g else h j

/-- `this.state.selectedGraphics` (as identities) together with the
graphics heap. -/
structure SelState where
  selected : List Nat
  heap : Heap

/-- JS `(originalSymbol.size || 8)`: `undefined` and `0` are falsy. -/
def hlBaseSize : Option Int → Int
  | some n => if n = 0 then 8 else n
  | none => 8

def highlightOutline : Outline := { color := [255, 255, 0, 1], width := 3 }

/-- `addSelectionHighlight` (GeomapComponent.tsx 744-761): no-op without a
symbol; otherwise stores the original symbol in `__originalSymbol` and
installs an enlarged clone with a yellow outline. -/
def addSelectionHighlight (h : Heap) (gid : Nat) : Heap :=
  let g := h gid
  match g.symbol with
  | none => h
  | some s =>
      let highlight : MarkerSymbol :=
        { s with size := some (hlBaseSize s.size + 4), outline := some highlightOutline }
      heapSet h gid { g with origSymbol := some s, symbol := some highlight }

/-- `removeSelectionHighlight` (GeomapComponent.tsx 763-770): restores
`__originalSymbol` when present and deletes the expando. -/
def removeSelectionHighlight (h : Heap) (gid : Nat) : Heap :=
  let g := h gid
  match g.origSymbol with
  | none => h
  | some s => heapSet h gid { g with symbol := some s, origSymbol := none }

/-- `handleFeatureSelection` (GeomapComponent.tsx 701-742). `hasMapView`
models the `this.mapView` null check; `enableSelection` models
`args.enable_selection !== false`. -/
def handleFeatureSelection (hasMapView enableSelection : Bool)
    (st : SelState) (gid : Nat) (now : String) : SelState × List Effect :=
  if !hasMapView then (st, [])
  else if !enableSelection then (st, [])
  else
    let isAlreadySelected := st.selected.any (fun g => g == gid)
    let newSelected :=
      if isAlreadySelected then st.selected.filter (fun g => g != gid)
      else st.selected ++ [gid]
    let heap1 :=
      if isAlreadySelected then removeSelectionHighlight st.heap gid
      else addSelectionHighlight st.heap gid
    (⟨newSelected, heap1⟩,
     [Effect.setStateSelected newSelected,
      Effect.emit (featureSelectedPayload (newSelected.map heap1) now)])

/-- Two successive selection toggles of the same graphic (with a live map
view and selection enabled). -/
def toggleTwice (st : SelState) (gid : Nat) : SelState :=
  let st1 := (handleFeatureSelection true true st gid "t1").1
  (handleFeatureSelection true true st1 gid "t2").1

/-- The throttled body of `handlePointerMove` (GeomapComponent.tsx
638-698). `hit` is the hit-test outcome: an exception, no graphic-type
result carrying a geometry, or the first such graphic with its geometry.
The cursor-style mutations are not modelled. The source compares hovered
features by `JSON.stringify`; both strings are produced from the same
object shape, so the comparison is modelled as structural equality. -/
def hoverTick (hit : Except Unit (Option (Graphic × GeomData)))
    (enableHoverArg : Option JValue) (last : Option FeatureData) (now : String) :
    Option FeatureData × List Effect :=
  match hit with
  | .error _ => (last, [])
  | .ok none => (none, [])
  | .ok (some gGd) =>
      let hovered := featureDataOf gGd.1 gGd.2
      if some hovered ≠ last then
        (some hovered,
         if jsEqFalse enableHoverArg then []
         else [Effect.emit (featureHoveredPayload hovered now)])
      else (last, [])

/-- `handleMapClick` (GeomapComponent.tsx 576-628). `fallible` bundles the
outcome of the fallible prefix (`toMap` and `hitTest`): an exception, or
the map point plus the identity of the first graphic-type hit result (if
any). The catch block only logs. -/
def handleMapClick (hasMapView : Bool)
    (fallible : Except Unit ((Int × Int) × Option Nat))
    (enableSelection : Bool) (st : SelState) (screen : Int × Int) (now : String) :
    SelState × List Effect :=
  if !hasMapView then (st, [])
  else
    match fallible with
    | .error _ => (st, [])
    | .ok res =>
        match res.2 with
        | some gid =>
            match (st.heap gid).geometry with
            | some gd =>
                let fd := featureDataOf (st.heap gid) gd
                let sel := handleFeatureSelection true enableSelection st gid now
                (sel.1, sel.2 ++ [Effect.emit (mapClickedPayload res.1 screen (some fd) now)])
            | none => (st, [Effect.emit (mapClickedPayload res.1 screen none now)])
        | none => (st, [Effect.emit (mapClickedPayload res.1 screen none now)])

/-! ## Map initialization (`initializeMap`, GeomapComponent.tsx 853-1041)

`initializeMap` is `async` with two `await` points (`mapView.when()` at
line 967 and `mapView.goTo(...)` at line 992). The code between awaits runs
without interleaving, so `this.isUnmounted` can only change at those
boundaries: `u0` is its value from entry through the `MapView` creation,
`u1` its value when execution resumes after `when()`, `u2` its value when
execution resumes after `goTo`. A rejected await or a throwing SDK call is
routed to the catch block together with the flag value current at that
moment. -/

structure InitEnv where
  /-- `this.mapRef.current` is non-null. -/
  hasMapRef : Bool
  /-- `this.mapRef.current.isConnected`. -/
  refConnected : Bool
  /-- `props.args.basemap`. -/
  basemap : Option String
  /-- `props.args.geojson`. -/
  geojson : Option GeoFeatureCollection
  /-- the effective legacy `feature_layers` configs. -/
  featureConfigs : List FeatureLayerConfig
  /-- `mapView.center` after the view loads (SDK-provided). -/
  viewCenter : Int × Int
  /-- `mapView.zoom` after the view loads. -/
  viewZoom : Int
  /-- oracle: an SDK constructor throws before the `MapView` exists. -/
  throwDuringSync : Option String
  /-- oracle: `mapView.when()` rejects. -/
  whenRejects : Option String
  /-- oracle: `mapView.goTo(...)` rejects. -/
  goToRejects : Option String
  /-- `new Date().toISOString()`. -/
  now : String

def featuresCount (env : InitEnv) : Int :=
  match env.geojson with
  | some gj => (gj.features.length : Int)
  | none => 0

def layersCount (env : InitEnv) : Int :=
  ((createFeatureLayers env.featureConfigs none).1.length : Int)

/-- Resumption after the `goTo` await — or directly when no `goTo` runs —
with `uF` the unmount flag at that point (lines 997-1016): the final
check, then `setState(mapLoaded)` and the `map_loaded` payload. -/
def initAfterGoTo (env : InitEnv) (uF : Bool) : List Effect × Option (String × Bool) :=
  if uF then ([], none)
  else
    ([Effect.setStateMapLoaded,
      Effect.emit (mapLoadedPayload (jsStrOr env.basemap "topo-vector") env.viewCenter
        env.viewZoom (featuresCount env) (layersCount env) env.now)],
     none)

/-- Whether `initializeMap` awaits `goTo`: a non-empty `geojson.features`
whose processing produced at least one graphic (lines 983-994). -/
def wantGoTo (env : InitEnv) : Bool :=
  match env.geojson with
  | some gj => gj.features.length > 0 && (processGeoJSON gj).length > 0
  | none => false

/-- Resumption after the `when()` await, with `u1` the unmount flag at that
point (lines 970-1016): an unmounted component runs `cleanup()` and
returns; otherwise event handlers are attached, GeoJSON graphics are added,
and `goTo` is awaited when there is at least one graphic. -/
def initAfterWhen (env : InitEnv) (u1 u2 : Bool) : List Effect × Option (String × Bool) :=
  if u1 then ([Effect.ranCleanup], none)
  else if wantGoTo env then
    match env.goToRejects with
    | some msg => ([Effect.addHandlers], some (msg, u2))
    | none =>
        let fin := initAfterGoTo env u2
        (Effect.addHandlers :: fin.1, fin.2)
  else
    let fin := initAfterGoTo env u1
    (Effect.addHandlers :: fin.1, fin.2)

/-- The body of the `try` block (lines 879-1021), producing the effect
trace and, when an SDK call throws or an await rejects, the pending
exception with the unmount flag current at that moment. -/
def initTry (env : InitEnv) (u0 u1 u2 : Bool) : List Effect × Option (String × Bool) :=
  match env.throwDuringSync with
  | some msg => ([], some (msg, u0))
  | none =>
      if u0 then ([], none)
      else if u0 || !env.hasMapRef || !env.refConnected then ([], none)
      else
        match env.whenRejects with
        | some msg => ([Effect.createMapView], some (msg, u1))
        | none =>
            let rest := initAfterWhen env u1 u2
            (Effect.createMapView :: rest.1, rest.2)

/-- The catch block (lines 1022-1040): when the component is not unmounted
it records the error in React state and reports an `error` payload; it
never rethrows. -/
def initCatch (unmountedAtCatch : Bool) (msg now : String) : List Effect :=
  if unmountedAtCatch then []
  else
    [Effect.setStateError ("Failed to initialize map: " ++ msg),
     Effect.emit (errorPayload msg now)]

/-- `initializeMap` as a whole. The `Except` layer records whether an
exception escapes to the caller (the returned promise would reject). -/
def initializeMapRun (env : InitEnv) (u0 u1 u2 : Bool) : Except String (List Effect) :=
  if u0 then .ok []
  else if !env.hasMapRef then .ok [Effect.setStateError "Map container not found"]
  else if !env.refConnected then
    .ok [Effect.setStateError "Map container is not attached to DOM"]
  else
    match initTry env u0 u1 u2 with
    | (effs, none) => .ok effs
    | (effs, some pending) => .ok (effs ++ initCatch pending.2 pending.1 env.now)

def initializeMap (env : InitEnv) (u0 u1 u2 : Bool) : List Effect :=
  match initializeMapRun env u0 u1 u2 with
  | .ok effs => effs
  | .error _ => []

/-- `initializeMapSafely` (lines 821-851): bail out when unmounted;
schedule a retry (or report a connection error after 50 attempts) when the
args are not ready; otherwise start `initializeMap`, whose entry reads the
same still-false unmount flag. -/
def initializeMapSafelyRun (unmounted argsReady : Bool) (retries : Nat)
    (env : InitEnv) (u1 u2 : Bool) : List Effect :=
  if unmounted then []
  else if !argsReady then
    if retries < 50 then [Effect.scheduleRetry (retries + 1)]
    else
      [Effect.setStateError
        "Failed to connect to Streamlit. Please refresh the page and check the console for troubleshooting tips."]
  else initializeMap env false u1 u2

/-! ## React lifecycle (`componentDidMount` 136-151,
`componentWillUnmount` 220-243) -/

structure World where
  isUnmounted : Bool
  observerSet : Bool
  pending : List STask
deriving DecidableEq

def exceptOk {ε α : Type} : Except ε α → Bool
  | .ok _ => true
  | .error _ => false

/-- `componentDidMount`: set up the DOM observer (when the container
exists), signal readiness, then run `initializeMapSafely`. Host and
browser primitives (`MutationObserver`, `setComponentReady`, `setState`,
`setTimeout`, `console`) are modelled as non-throwing; every SDK call that
can throw is inside `initializeMap`, which is `async`, so its exceptions
surface as a rejected promise, never as a synchronous throw. -/
def componentDidMountRun (w : World) (env : InitEnv) (argsReady : Bool)
    (u1 u2 : Bool) : Except String (World × List Effect) :=
  .ok ({ w with observerSet := w.observerSet || env.hasMapRef },
       Effect.setReady :: initializeMapSafelyRun w.isUnmounted argsReady 0 env u1 u2)

/-- `componentWillUnmount`: sets the unmount flag and defers `cleanup` via
`setTimeout(..., 0)`; nothing else. -/
def componentWillUnmountRun (w : World) : Except String (World × List Effect) :=
  .ok ({ w with isUnmounted := true, pending := w.pending ++ [STask.cleanupTask] }, [])

/-- A lifecycle event with the environment the host presents at that
moment. -/
inductive LEvent where
  | mountEv (env : InitEnv) (argsReady : Bool) (u1 u2 : Bool)
  | unmountEv

def lifecycleStep : LEvent → World → Except String (World × List Effect)
  | .mountEv env argsReady u1 u2, w => componentDidMountRun w env argsReady u1 u2
  | .unmountEv, w => componentWillUnmountRun w

def runLifecycle : List LEvent → World → Except String World
  | [], w => .ok w
  | e :: es, w =>
      match lifecycleStep e w with
      | .ok res => runLifecycle es res.1
      | .error msg => .error msg

/-! ## Teardown (`cleanup`, GeomapComponent.tsx 245-458)

`cleanup` runs synchronously (scheduled by `componentWillUnmount` via
`setTimeout(0)`), so no third party can interleave with it: the DOM
children present when it starts, and an oracle choosing which SDK/DOM
calls throw, cover every state a third party can have left behind. -/

/-- One entry of `this.featureLayers` at cleanup time. -/
structure FLState where
  /-- the array slot holds a falsy value. -/
  isNull : Bool
  /-- `mapView.map.layers.includes(layer)`. -/
  attached : Bool
  /-- `typeof layer.destroy === 'function'`. -/
  hasDestroy : Bool

/-- The component fields read by `cleanup`. -/
structure CleanupState where
  hasHoverTimeout : Bool
  hasObserver : Bool
  mapViewExists : Bool
  mapViewDestroyed : Bool
  mapViewHasMap : Bool
  mapViewHasDestroy : Bool
  graphicsLayerExists : Bool
  glHasRemoveAll : Bool
  glAttached : Bool
  glHasDestroy : Bool
  featureLayers : List FLState
  hasMapRef : Bool
  refConnected : Bool
  /-- the container's child nodes, in order, as identities. -/
  children : List Nat

/-- Chooses which calls throw. `removeChildFails` is indexed by the
attempt counter of the child-removal loop. -/
structure CleanupOracle where
  clearTimeoutThrows : Bool
  observerDisconnectThrows : Bool
  removeHandlesThrows : Bool
  glRemoveAllThrows : Bool
  glMapRemoveThrows : Bool
  glDestroyThrows : Bool
  flRemoveThrows : Nat → Bool
  flDestroyThrows : Nat → Bool
  mvDestroyThrows : Bool
  removeChildFails : Nat → Bool

/-- A call that throws exactly when the oracle says so. -/
def opRun (throws : Bool) : Except String Unit :=
  if throws then .error "thrown" else .ok ()

/-- An inner `try { ... } catch (error) { log }`: the error is swallowed
and execution continues. -/
def tryCatchU (body : Except String Unit) : Except String Unit :=
  match body with
  | .ok _ => .ok ()
  | .error _ => .ok ()

/-- Step 1 (lines 277-291): `removeHandles()` inside its own try/catch,
guarded by a live, non-destroyed `MapView`. -/
def step1Run (st : CleanupState) (o : CleanupOracle) : Except String Unit :=
  if st.mapViewExists && !st.mapViewDestroyed then tryCatchU (opRun o.removeHandlesThrows)
  else .ok ()

/-- Step 2 (lines 293-327): graphics-layer teardown inside one try/catch;
a throw skips the remaining calls of the step. -/
def step2Run (st : CleanupState) (o : CleanupOracle) : Except String Unit :=
  if st.graphicsLayerExists then
    tryCatchU (do
      if st.glHasRemoveAll then opRun o.glRemoveAllThrows
      if st.mapViewExists && st.mapViewHasMap && !st.mapViewDestroyed then
        if st.glAttached then opRun o.glMapRemoveThrows
      if st.glHasDestroy then opRun o.glDestroyThrows)
  else .ok ()

/-- Step 3 (lines 329-356): each feature layer's teardown inside its own
try/catch, so one failing layer does not stop the others. -/
def step3Go (o : CleanupOracle) (mapOk : Bool) : Nat → List FLState → Except String Unit
  | _, [] => .ok ()
  | i, l :: rest => do
      tryCatchU (do
        if mapOk && !l.isNull then
          if l.attached then opRun (o.flRemoveThrows i)
        if !l.isNull && l.hasDestroy then opRun (o.flDestroyThrows i))
      step3Go o mapOk (i + 1) rest

def step3Run (st : CleanupState) (o : CleanupOracle) : Except String Unit :=
  step3Go o (st.mapViewExists && st.mapViewHasMap && !st.mapViewDestroyed) 0 st.featureLayers

/-- Step 4 (lines 358-388): `mapView.destroy()` inside its own try/catch,
skipped when already destroyed. -/
def step4Run (st : CleanupState) (o : CleanupOracle) : Except String Unit :=
  if st.mapViewExists then
    tryCatchU
      (if !st.mapViewDestroyed && st.mapViewHasDestroy then opRun o.mvDestroyThrows
       else .ok ())
  else .ok ()

/-- A recorded `removeChild` attempt. -/
structure DomAttempt where
  node : Nat
  childrenAtAttempt : List Nat
  connectedAtAttempt : Bool
  succeeded : Bool
deriving DecidableEq

/-- The `while (firstChild)` loop (lines 403-432): each iteration reads the
current first child and attempts to remove it inside a try/catch whose
catch breaks the loop; a successful removal increments the counter, which
breaks after exceeding 100. -/
def domRemoveLoop (fails : Nat → Bool) (connected : Bool) :
    Nat → List Nat → List DomAttempt × List Nat
  | _, [] => ([], [])
  | idx, c :: rest =>
      if fails idx then ([⟨c, c :: rest, connected, false⟩], c :: rest)
      else if idx + 1 > 100 then ([⟨c, c :: rest, connected, true⟩], rest)
      else
        let tail := domRemoveLoop fails connected (idx + 1) rest
        (⟨c, c :: rest, connected, true⟩ :: tail.1, tail.2)

/-- Step 5 (lines 390-445): the loop runs only when the container exists
and is still connected to the DOM. -/
def domCleanupStep (hasMapRef connected : Bool) (fails : Nat → Bool)
    (children : List Nat) : List DomAttempt × List Nat :=
  if !hasMapRef then ([], children)
  else if !connected then ([], children)
  else domRemoveLoop fails connected 0 children

/-- The body of the outer `try` of `cleanup`: `clearTimeout` and
`observer.disconnect()` are protected only by the outer catch; steps 1-5
carry their own inner catches. -/
def cleanupBody (st : CleanupState) (o : CleanupOracle) :
    Except String (List DomAttempt × List Nat) := do
  opRun (st.hasHoverTimeout && o.clearTimeoutThrows)
  opRun (st.hasObserver && o.observerDisconnectThrows)
  step1Run st o
  step2Run st o
  step3Run st o
  step4Run st o
  pure (domCleanupStep st.hasMapRef st.refConnected o.removeChildFails st.children)

/-- `cleanup` as called by the deferred timeout: the outer catch only logs,
so no exception ever reaches the caller. When the outer catch fires before
step 5, no DOM child was touched. -/
def cleanupRun (st : CleanupState) (o : CleanupOracle) :
    Except String (List DomAttempt × List Nat) :=
  match cleanupBody st o with
  | .ok r => .ok r
  | .error _ => .ok ([], st.children)

/-- The `removeChild` attempts a full `cleanup` run performs. -/
def cleanupAttempts (st : CleanupState) (o : CleanupOracle) : List DomAttempt :=
  match cleanupRun st o with
  | .ok r => r.1
  | .error _ => []

/-! ## Sample values used by witnesses and counterexamples -/

def sampleGraphic : Graphic :=
  { symbol := some defaultMarkerSymbol
    origSymbol := none
    attributes := some [("name", .astr "pt")]
    geometry := some { gtype := "point", longitude := some 7, latitude := some 50 } }

def sampleGeom : GeomData := { gtype := "point", longitude := some 7, latitude := some 50 }

def sampleHeap : Heap := fun _ => sampleGraphic

/-- A config whose `title` is present but the empty string. -/
def emptyTitleConfig : FeatureLayerConfig :=
  { url := some "https://example.com/FeatureServer/0"
    portal_item_id := none
    api_key := none
    oauth_token := none
    renderer := none
    label_info := none
    title := some ""
    visible := none }

/-- A two-element selection, used to exhibit the reordering of the
selected list under a double toggle. -/
def reorderSelState : SelState := ⟨[1, 2], sampleHeap⟩

/-- A selection not containing graphic 1, used as a witness state. -/
def witnessSelState : SelState := ⟨[2], sampleHeap⟩

/-- The selection state of a click run with no prior selection. -/
def clickSelState : SelState := ⟨[], sampleHeap⟩

/-- An environment in which an SDK constructor throws during the
synchronous part of `initializeMap`. -/
def boomEnv : InitEnv :=
  { hasMapRef := true
    refConnected := true
    basemap := none
    geojson := none
    featureConfigs := []
    viewCenter := (0, 0)
    viewZoom := 12
    throwDuringSync := some "boom"
    whenRejects := none
    goToRejects := none
    now := "t" }

/-- A fully live component state at teardown time, with two DOM children. -/
def sampleCleanupState : CleanupState :=
  { hasHoverTimeout := false
    hasObserver := false
    mapViewExists := true
    mapViewDestroyed := false
    mapViewHasMap := true
    mapViewHasDestroy := true
    graphicsLayerExists := true
    glHasRemoveAll := true
    glAttached := true
    glHasDestroy := true
    featureLayers := [⟨false, true, true⟩]
    hasMapRef := true
    refConnected := true
    children := [10, 11] }

/-- An oracle under which no cleanup call throws. -/
def sampleCleanupOracle : CleanupOracle :=
  { clearTimeoutThrows := false
    observerDisconnectThrows := false
    removeHandlesThrows := false
    glRemoveAllThrows := false
    glMapRemoveThrows := false
    glDestroyThrows := false
    flRemoveThrows := fun _ => false
    flDestroyThrows := fun _ => false
    mvDestroyThrows := false
    removeChildFails := fun _ => false }

/-- The default `DomAttempt` used by positional list indexing. -/
def noAttempt : DomAttempt := ⟨0, [], false, false⟩


/-! ## Claim theorems -/

/-- Helper: `foldl` with push equals `filterMap`. -/
theorem processGeoJSON_go (l : List GeoFeature) (acc : List Graphic) :
    l.foldl
      (fun acc f =>
        if f.geometry.gtype = "Point" then acc ++ [pointGraphicOfFeature f] else acc)
      acc
      = acc ++ l.filterMap
          (fun f =>
            if f.geometry.gtype = "Point" then some (pointGraphicOfFeature f) else none) := by
  induction l generalizing acc with
  | nil => simp
  | cons f rest ih =>
      simp only [List.foldl_cons, List.filterMap_cons]
      by_cases h : f.geometry.gtype = "Point" <;> simp [h, ih]

/-- C3: `processGeoJSON` yields one graphic per feature whose geometry type
is exactly `"Point"`, in input order, with longitude/latitude taken from
`coordinates[0]`/`coordinates[1]` and attributes from `properties` (or the
empty object when absent); all other geometry types contribute nothing. -/
theorem processGeoJSON_points_in_order (geojson : GeoFeatureCollection) :
    processGeoJSON geojson = geojson.features.filterMap
      (fun f =>
        if f.geometry.gtype = "Point" then
          some { symbol := some defaultMarkerSymbol
                 origSymbol := none
                 attributes := some (f.properties.getD [])
                 geometry := some { gtype := "point"
                                    longitude := f.geometry.coordinates.get? 0
                                    latitude := f.geometry.coordinates.get? 1 } }
        else none) := by
  have h := processGeoJSON_go geojson.features []
  simpa [processGeoJSON, pointGraphicOfFeature] using h

/-- C10 counterexample: a negative numeric height prop is returned
unchanged, so `extractNumericHeight` does not always return a positive
number, nor 400 for this non-positive input. -/
theorem extractNumericHeight_negative_passthrough :
    extractNumericHeight (.num (-5)) = -5 ∧
    ¬ (0 < extractNumericHeight (.num (-5))) ∧
    extractNumericHeight (.num (-5)) ≠ 400 := by
  refine ⟨rfl, by decide, by decide⟩

/-- C10 (amended): numbers pass through unchanged (even non-positive
ones); for strings the integer prefix (after stripping a trailing `px`) is
returned when positive and 400 otherwise, so every string or non-number
input yields a positive result. -/
theorem extractNumericHeight_characterization :
    (∀ n : Int, extractNumericHeight (.num n) = n) ∧
    (∀ s : String, 0 < extractNumericHeight (.str s)) ∧
    (∀ s : String, ∀ v : Int, jsParseInt (stripPx s) = some v → 0 < v →
        extractNumericHeight (.str s) = v) ∧
    (∀ s : String, ∀ v : Int, jsParseInt (stripPx s) = some v → ¬ 0 < v →
        extractNumericHeight (.str s) = 400) ∧
    (∀ s : String, jsParseInt (stripPx s) = none → extractNumericHeight (.str s) = 400) ∧
    extractNumericHeight .other = 400 := by
  refine ⟨fun n => rfl, fun s => ?_, fun s v h hv => ?_, fun s v h hv => ?_,
    fun s h => ?_, rfl⟩
  · rcases h : jsParseInt (stripPx s) with _ | v <;> simp [extractNumericHeight, h]
    split <;> omega
  · simp [extractNumericHeight, h, hv]
  · simp [extractNumericHeight, h, hv]
  · simp [extractNumericHeight, h]

theorem extractNumericHeight_characterization_witness :
    extractNumericHeight (.str "300px") = 300 :=
  extractNumericHeight_characterization.2.2.1 "300px" 300 (by decide) (by decide)

/-- C7 counterexample: a present-but-empty `title` is not copied onto the
created layer (JS truthiness drops it), so the optional fields are not
copied through whenever present. -/
theorem empty_title_not_copied :
    emptyTitleConfig.title = some "" ∧
    ((createFeatureLayers [emptyTitleConfig] none).1.map FeatureLayer.title) = [none] :=
  ⟨rfl, rfl⟩

/-- C7 (amended): one layer per config with a truthy `url` or, failing
that, a truthy `portal_item_id` (`layerSourceOf`); a config with neither
contributes nothing and the rest are still processed; `title`, `renderer`,
`label_info` and `oauth_token` are copied when truthy, `visible` whenever
defined. -/
theorem createFeatureLayers_characterization
    (configs : List FeatureLayerConfig) (apiKey : Option String) :
    (createFeatureLayers configs apiKey).1 = configs.filterMap
      (fun c =>
        (layerSourceOf c).map
          (fun src =>
            { source := src
              title := if strTruthy c.title then c.title else none
              visible := c.visible
              renderer := if optJTruthy c.renderer then c.renderer else none
              labelingInfo := if optJTruthy c.label_info then c.label_info else none
              customParameters :=
                if strTruthy c.oauth_token then c.oauth_token else none })) := by
  induction configs generalizing apiKey with
  | nil => rfl
  | cons c rest ih =>
      simp only [createFeatureLayers, List.filterMap_cons]
      cases h : layerSourceOf c with
      | none => simp [h, ih]
      | some src => simp [h, ih, mkFeatureLayer]

theorem any_beq_false_of_not_mem (l : List Nat) (x : Nat) (h : x ∉ l) :
    l.any (fun g => g == x) = false := by
  induction l with
  | nil => rfl
  | cons a rest ih =>
      simp only [List.any_cons, Bool.or_eq_false_iff]
      refine ⟨?_, ih (fun hm => h (List.mem_cons_of_mem _ hm))⟩
      simp only [beq_eq_false_iff_ne, ne_eq]
      intro hax
      exact h (hax ▸ List.mem_cons_self a rest)

theorem filter_bne_self_of_not_mem (l : List Nat) (x : Nat) (h : x ∉ l) :
    l.filter (fun g => g != x) = l := by
  induction l with
  | nil => rfl
  | cons a rest ih =>
      have hax : (a != x) = true := by
        simp only [bne_iff_ne, ne_eq]
        intro hax
        exact h (hax ▸ List.mem_cons_self a rest)
      simp [List.filter_cons, hax, ih (fun hm => h (List.mem_cons_of_mem _ hm))]

/-- C8 counterexample: toggling graphic 1 twice from the selection `[1, 2]`
leaves `[2, 1]`, not the prior list: a double toggle of an
already-selected graphic moves it to the end of the list. -/
theorem selection_toggle_reorders_list :
    (toggleTwice reorderSelState 1).selected = [2, 1] ∧
    ([2, 1] : List Nat) ≠ reorderSelState.selected := by
  exact ⟨rfl, by decide⟩

/-- C8 (amended): toggling a graphic that is not currently selected (and
that carries no stale stored original symbol without a current symbol)
twice in succession, with a live view and selection enabled, restores both
the selected list and the graphic's symbol. -/
theorem selection_toggle_restores (st : SelState) (gid : Nat)
    (hNotSel : gid ∉ st.selected)
    (hSym : (st.heap gid).symbol = none → (st.heap gid).origSymbol = none) :
    (toggleTwice st gid).selected = st.selected ∧
    ((toggleTwice st gid).heap gid).symbol = (st.heap gid).symbol := by
  have h1 : st.selected.any (fun g => g == gid) = false :=
    any_beq_false_of_not_mem _ _ hNotSel
  have h2 : (st.selected ++ [gid]).any (fun g => g == gid) = true := by
    simp [List.any_append]
  have h3 : (st.selected ++ [gid]).filter (fun g => g != gid) = st.selected := by
    rw [List.filter_append, filter_bne_self_of_not_mem _ _ hNotSel]
    simp
  have hsel : (toggleTwice st gid).selected = st.selected := by
    simp only [toggleTwice, handleFeatureSelection, Bool.not_true, Bool.false_eq_true,
      if_false, h1, if_true, h2, h3]
  refine ⟨hsel, ?_⟩
  have hheap : (toggleTwice st gid).heap
      = removeSelectionHighlight (addSelectionHighlight st.heap gid) gid := by
    simp only [toggleTwice, handleFeatureSelection, Bool.not_true, Bool.false_eq_true,
      if_false, h1, if_true, h2]
  rw [hheap]
  cases hsy : (st.heap gid).symbol with
  | none =>
      have hor : (st.heap gid).origSymbol = none := hSym hsy
      simp [addSelectionHighlight, removeSelectionHighlight, hsy, hor]
  | some s =>
      simp [addSelectionHighlight, removeSelectionHighlight, hsy, heapSet]

theorem selection_toggle_restores_witness :
    (toggleTwice witnessSelState 1).selected = witnessSelState.selected ∧
    ((toggleTwice witnessSelState 1).heap 1).symbol = (witnessSelState.heap 1).symbol :=
  selection_toggle_restores witnessSelState 1 (by decide) (by decide)

/-- Helper: inversion of a `feature_hovered` emission of the hover
handler. -/
theorem hoverTick_emit_inv (hit : Except Unit (Option (Graphic × GeomData)))
    (enableHoverArg : Option JValue) (last : Option FeatureData) (now : String)
    (p : JValue)
    (hp : Effect.emit p ∈ (hoverTick hit enableHoverArg last now).2) :
    jsEqFalse enableHoverArg = false ∧
    ∃ g gd, hit = .ok (some (g, gd)) ∧ some (featureDataOf g gd) ≠ last ∧
      p = featureHoveredPayload (featureDataOf g gd) now := by
  match hit with
  | .error e => simp [hoverTick] at hp
  | .ok none => simp [hoverTick] at hp
  | .ok (some gGd) =>
      by_cases hne : some (featureDataOf gGd.1 gGd.2) ≠ last
      · by_cases hef : jsEqFalse enableHoverArg
        · simp [hoverTick, hne, hef] at hp
        · simp only [hoverTick, if_pos hne, if_neg hef, List.mem_singleton] at hp
          have hp2 : p = featureHoveredPayload (featureDataOf gGd.1 gGd.2) now := by
            injection hp
          exact ⟨by simpa using hef, gGd.1, gGd.2, rfl, hne, hp2⟩
      · simp [hoverTick, hne] at hp

/-- C9: a `feature_hovered` payload is emitted by the hover handler only
when `enable_hover` is not `false` and the hovered feature differs from
the previously hovered one; an empty hit or an unchanged feature emits
nothing. -/
theorem hover_payload_gating (hit : Except Unit (Option (Graphic × GeomData)))
    (enableHoverArg : Option JValue) (last : Option FeatureData) (now : String)
    (p : JValue)
    (hp : Effect.emit p ∈ (hoverTick hit enableHoverArg last now).2) :
    jsEqFalse enableHoverArg = false ∧
    ∃ g gd, hit = .ok (some (g, gd)) ∧ some (featureDataOf g gd) ≠ last ∧
      p = featureHoveredPayload (featureDataOf g gd) now :=
  hoverTick_emit_inv hit enableHoverArg last now p hp

theorem hover_payload_gating_witness :
    jsEqFalse (none : Option JValue) = false ∧
    ∃ g gd,
      (Except.ok (some (sampleGraphic, sampleGeom)) :
          Except Unit (Option (Graphic × GeomData))) = .ok (some (g, gd)) ∧
      some (featureDataOf g gd) ≠ (none : Option FeatureData) ∧
      featureHoveredPayload (featureDataOf sampleGraphic sampleGeom) "t"
        = featureHoveredPayload (featureDataOf g gd) "t" :=
  hover_payload_gating (.ok (some (sampleGraphic, sampleGeom))) none none "t"
    (featureHoveredPayload (featureDataOf sampleGraphic sampleGeom) "t")
    (List.mem_singleton.mpr rfl)

theorem goodPayload_mapClicked (mapPt screen : Int × Int) (fd : Option FeatureData)
    (now : String) : goodPayload (mapClickedPayload mapPt screen fd now) = true := rfl

theorem goodPayload_featureHovered (f : FeatureData) (now : String) :
    goodPayload (featureHoveredPayload f now) = true := rfl

theorem goodPayload_featureSelected (gs : List Graphic) (now : String) :
    goodPayload (featureSelectedPayload gs now) = true := rfl

theorem goodPayload_mapLoaded (b : String) (c : Int × Int) (z fr fl : Int)
    (now : String) : goodPayload (mapLoadedPayload b c z fr fl now) = true := rfl

theorem goodPayload_error (msg now : String) :
    goodPayload (errorPayload msg now) = true := rfl

/-- Helper: every payload emitted by `handleFeatureSelection` is a
`feature_selected` payload. -/
theorem emit_mem_handleFeatureSelection (hasMV enSel : Bool) (st : SelState)
    (gid : Nat) (now : String) (p : JValue)
    (hp : Effect.emit p ∈ (handleFeatureSelection hasMV enSel st gid now).2) :
    ∃ gs, p = featureSelectedPayload gs now := by
  unfold handleFeatureSelection at hp
  split at hp
  · simp at hp
  · split at hp
    · simp at hp
    · simp only [List.mem_cons, List.mem_singleton, List.not_mem_nil, or_false] at hp
      rcases hp with hp | hp
      · exact absurd hp (by simp)
      · exact ⟨_, by injection hp⟩

/-- Helper: every payload emitted by `initAfterGoTo` is the `map_loaded`
payload. -/
theorem emit_mem_initAfterGoTo (env : InitEnv) (uF : Bool) (p : JValue)
    (hp : Effect.emit p ∈ (initAfterGoTo env uF).1) :
    p = mapLoadedPayload (jsStrOr env.basemap "topo-vector") env.viewCenter
      env.viewZoom (featuresCount env) (layersCount env) env.now := by
  unfold initAfterGoTo at hp
  split at hp
  · simp at hp
  · simp only [List.mem_cons, List.mem_singleton, List.not_mem_nil, or_false] at hp
    rcases hp with hp | hp
    · exact absurd hp (by simp)
    · injection hp

/-- Helper: every payload emitted by `initAfterWhen` is the `map_loaded`
payload. -/
theorem emit_mem_initAfterWhen (env : InitEnv) (u1 u2 : Bool) (p : JValue)
    (hp : Effect.emit p ∈ (initAfterWhen env u1 u2).1) :
    p = mapLoadedPayload (jsStrOr env.basemap "topo-vector") env.viewCenter
      env.viewZoom (featuresCount env) (layersCount env) env.now := by
  unfold initAfterWhen at hp
  split at hp
  · simp at hp
  · split at hp
    · split at hp
      · simp at hp
      · rcases List.mem_cons.mp hp with hp | hp
        · exact absurd hp (by simp)
        · exact emit_mem_initAfterGoTo env u2 p hp
    · rcases List.mem_cons.mp hp with hp | hp
      · exact absurd hp (by simp)
      · exact emit_mem_initAfterGoTo env u1 p hp

/-- Helper: every payload emitted by the `try` body of `initializeMap` is
the `map_loaded` payload. -/
theorem emit_mem_initTry (env : InitEnv) (u0 u1 u2 : Bool) (p : JValue)
    (hp : Effect.emit p ∈ (initTry env u0 u1 u2).1) :
    p = mapLoadedPayload (jsStrOr env.basemap "topo-vector") env.viewCenter
      env.viewZoom (featuresCount env) (layersCount env) env.now := by
  unfold initTry at hp
  split at hp
  · simp at hp
  · split at hp
    · simp at hp
    · split at hp
      · simp at hp
      · split at hp
        · simp only [List.mem_singleton] at hp
          exact absurd hp (by simp)
        · simp only [List.mem_cons] at hp
          rcases hp with hp | hp
          · exact absurd hp (by simp)
          · exact emit_mem_initAfterWhen env u1 u2 p hp

/-- Helper: every payload emitted by the catch block of `initializeMap` is
the `error` payload. -/
theorem emit_mem_initCatch (flag : Bool) (msg now : String) (p : JValue)
    (hp : Effect.emit p ∈ initCatch flag msg now) :
    p = errorPayload msg now := by
  unfold initCatch at hp
  split at hp
  · simp at hp
  · simp only [List.mem_cons, List.mem_singleton, List.not_mem_nil, or_false] at hp
    rcases hp with hp | hp
    · exact absurd hp (by simp)
    · injection hp

/-- C1 (amended): every payload sent to the host by the click, hover,
selection and initialization paths is a JSON object whose `event` tag is
drawn from exactly the documented five-tag set and which carries a
`timestamp` field (each of the five tags does occur); the payloads are not
all flat. -/
theorem payload_event_tags_timestamp :
    (∀ hasMV fall enSel st screen now p,
        Effect.emit p ∈ (handleMapClick hasMV fall enSel st screen now).2 →
        goodPayload p = true) ∧
    (∀ hit arg last now p,
        Effect.emit p ∈ (hoverTick hit arg last now).2 → goodPayload p = true) ∧
    (∀ hasMV enSel st gid now p,
        Effect.emit p ∈ (handleFeatureSelection hasMV enSel st gid now).2 →
        goodPayload p = true) ∧
    (∀ env u0 u1 u2 effs p, initializeMapRun env u0 u1 u2 = .ok effs →
        Effect.emit p ∈ effs → goodPayload p = true) ∧
    eventTag (mapClickedPayload (0, 0) (0, 0) none "t") = some "map_clicked" ∧
    eventTag (featureHoveredPayload (featureDataOf sampleGraphic sampleGeom) "t")
      = some "feature_hovered" ∧
    eventTag (featureSelectedPayload [] "t") = some "feature_selected" ∧
    eventTag (mapLoadedPayload "topo-vector" (0, 0) 12 0 0 "t") = some "map_loaded" ∧
    eventTag (errorPayload "boom" "t") = some "error" := by
  refine ⟨?_, ?_, ?_, ?_, rfl, rfl, rfl, rfl, rfl⟩
  · intro hasMV fall enSel st screen now p hp
    unfold handleMapClick at hp
    split at hp
    · simp at hp
    · split at hp
      · simp at hp
      · split at hp
        · split at hp
          · rw [List.mem_append] at hp
            rcases hp with hp | hp
            · obtain ⟨gs, rfl⟩ := emit_mem_handleFeatureSelection _ _ _ _ _ _ hp
              exact goodPayload_featureSelected _ _
            · simp only [List.mem_singleton] at hp
              rw [show p = mapClickedPayload _ screen _ now from by injection hp]
              exact goodPayload_mapClicked _ _ _ _
          · simp only [List.mem_singleton] at hp
            rw [show p = mapClickedPayload _ screen none now from by injection hp]
            exact goodPayload_mapClicked _ _ _ _
        · simp only [List.mem_singleton] at hp
          rw [show p = mapClickedPayload _ screen none now from by injection hp]
          exact goodPayload_mapClicked _ _ _ _
  · intro hit arg last now p hp
    obtain ⟨-, g, gd, -, -, rfl⟩ := hoverTick_emit_inv hit arg last now p hp
    exact goodPayload_featureHovered _ _
  · intro hasMV enSel st gid now p hp
    obtain ⟨gs, rfl⟩ := emit_mem_handleFeatureSelection _ _ _ _ _ _ hp
    exact goodPayload_featureSelected _ _
  · intro env u0 u1 u2 effs p heq hp
    unfold initializeMapRun at heq
    split at heq
    · cases heq; simp at hp
    · split at heq
      · cases heq
        simp only [List.mem_singleton] at hp
        exact absurd hp (by simp)
      · split at heq
        · cases heq
          simp only [List.mem_singleton] at hp
          exact absurd hp (by simp)
        · split at heq
          · cases heq
            rename_i hmatch
            rw [show p = mapLoadedPayload (jsStrOr env.basemap "topo-vector")
                  env.viewCenter env.viewZoom (featuresCount env) (layersCount env)
                  env.now from
                emit_mem_initTry env u0 u1 u2 p (by rw [hmatch]; exact hp)]
            exact goodPayload_mapLoaded _ _ _ _ _ _
          · cases heq
            rename_i hmatch
            rw [List.mem_append] at hp
            rcases hp with hp | hp
            · rw [show p = mapLoadedPayload (jsStrOr env.basemap "topo-vector")
                    env.viewCenter env.viewZoom (featuresCount env) (layersCount env)
                    env.now from
                  emit_mem_initTry env u0 u1 u2 p (by rw [hmatch]; exact hp)]
              exact goodPayload_mapLoaded _ _ _ _ _ _
            · rw [emit_mem_initCatch _ _ _ _ hp]
              exact goodPayload_error _ _

theorem payload_event_tags_timestamp_witness :
    goodPayload (mapClickedPayload (1, 2) (3, 4) none "t") = true :=
  payload_event_tags_timestamp.1 true (.ok ((1, 2), none)) true clickSelState (3, 4) "t"
    (mapClickedPayload (1, 2) (3, 4) none "t") (List.mem_singleton.mpr rfl)

/-- C1 counterexample: the `map_clicked` payload emitted for a featureless
click is not a flat JSON object — its `coordinates` field is an array and
its `screenPoint` field is a nested object. -/
theorem map_clicked_payload_not_flat :
    (handleMapClick true (.ok ((1, 2), none)) true clickSelState (3, 4) "t").2
      = [Effect.emit (mapClickedPayload (1, 2) (3, 4) none "t")] ∧
    (mapClickedPayload (1, 2) (3, 4) none "t").isFlatObject = false :=
  ⟨rfl, rfl⟩

theorem tryCatchU_ok (b : Except String Unit) : tryCatchU b = .ok () := by
  cases b <;> rfl

theorem step1Run_ok (st : CleanupState) (o : CleanupOracle) : step1Run st o = .ok () := by
  unfold step1Run
  split
  · exact tryCatchU_ok _
  · rfl

theorem step2Run_ok (st : CleanupState) (o : CleanupOracle) : step2Run st o = .ok () := by
  unfold step2Run
  split
  · exact tryCatchU_ok _
  · rfl

theorem step3Go_ok (o : CleanupOracle) (mapOk : Bool) (i : Nat) (ls : List FLState) :
    step3Go o mapOk i ls = .ok () := by
  induction ls generalizing i with
  | nil => rfl
  | cons l rest ih =>
      unfold step3Go
      rw [tryCatchU_ok]
      exact ih (i + 1)

theorem step3Run_ok (st : CleanupState) (o : CleanupOracle) : step3Run st o = .ok () :=
  step3Go_ok o _ 0 st.featureLayers

theorem step4Run_ok (st : CleanupState) (o : CleanupOracle) : step4Run st o = .ok () := by
  unfold step4Run
  split
  · exact tryCatchU_ok _
  · rfl

/-- The outer try body either completes with the DOM-step result or throws
(only `clearTimeout` / `observer.disconnect` can reach the outer catch). -/
theorem cleanupBody_cases (st : CleanupState) (o : CleanupOracle) :
    cleanupBody st o
      = .ok (domCleanupStep st.hasMapRef st.refConnected o.removeChildFails st.children) ∨
    ∃ msg, cleanupBody st o = .error msg := by
  unfold cleanupBody
  rw [step1Run_ok, step2Run_ok, step3Run_ok, step4Run_ok]
  unfold opRun
  split
  · exact Or.inr ⟨_, rfl⟩
  · split
    · exact Or.inr ⟨_, rfl⟩
    · exact Or.inl rfl

theorem cleanupAttempts_cases (st : CleanupState) (o : CleanupOracle) :
    cleanupAttempts st o
      = (domCleanupStep st.hasMapRef st.refConnected o.removeChildFails st.children).1 ∨
    cleanupAttempts st o = [] := by
  rcases cleanupBody_cases st o with h | ⟨msg, h⟩ <;>
    simp [cleanupAttempts, cleanupRun, h]

/-- C4 (amended): no exception ever escapes `cleanup` — every combination
of component state and throwing calls ends in the normal branch — and the
whole of `initializeMap` likewise never lets an exception escape (its
catch reports initialization errors instead of rethrowing). -/
theorem cleanup_never_propagates :
    (∀ (st : CleanupState) (o : CleanupOracle), exceptOk (cleanupRun st o) = true) ∧
    (∀ (env : InitEnv) (u0 u1 u2 : Bool),
        exceptOk (initializeMapRun env u0 u1 u2) = true) := by
  constructor
  · intro st o
    unfold cleanupRun
    cases cleanupBody st o <;> rfl
  · intro env u0 u1 u2
    unfold initializeMapRun
    split
    · rfl
    split
    · rfl
    split
    · rfl
    · cases h : initTry env u0 u1 u2 with
      | mk effs pending => cases pending <;> simp [h, exceptOk]

/-- C4 counterexample: when an SDK constructor throws during
initialization of a mounted component, the catch block performs error
handling — a React error-state update and an `error` payload to the host —
outside teardown, so error handling is not exclusively teardown
suppression. -/
theorem init_error_reported_outside_teardown :
    initializeMap boomEnv false false false =
      [Effect.setStateError "Failed to initialize map: boom",
       Effect.emit (errorPayload "boom" "t")] ∧
    eventTag (errorPayload "boom" "t") = some "error" :=
  ⟨rfl, rfl⟩

theorem domRemoveLoop_attempt_props (fails : Nat → Bool) (connected : Bool)
    (children : List Nat) (idx : Nat) (a : DomAttempt)
    (ha : a ∈ (domRemoveLoop fails connected idx children).1) :
    a.connectedAtAttempt = connected ∧ a.childrenAtAttempt.head? = some a.node := by
  induction children generalizing idx with
  | nil => simp [domRemoveLoop] at ha
  | cons c rest ih =>
      unfold domRemoveLoop at ha
      split at ha
      · rw [List.mem_singleton] at ha
        subst ha
        exact ⟨rfl, rfl⟩
      · split at ha
        · rw [List.mem_singleton] at ha
          subst ha
          exact ⟨rfl, rfl⟩
        · rcases List.mem_cons.mp ha with ha | ha
          · subst ha
            exact ⟨rfl, rfl⟩
          · exact ih (idx + 1) ha

theorem domRemoveLoop_stops_on_failure (fails : Nat → Bool) (connected : Bool)
    (children : List Nat) (idx : Nat) (i : Nat)
    (hi : i + 1 < (domRemoveLoop fails connected idx children).1.length) :
    ((domRemoveLoop fails connected idx children).1.getD i noAttempt).succeeded
      = true := by
  induction children generalizing idx i with
  | nil => simp [domRemoveLoop] at hi
  | cons c rest ih =>
      unfold domRemoveLoop at hi ⊢
      split at hi
      · simp at hi
      · split at hi
        · simp at hi
        · rename_i hfail hbreak
          rw [if_neg hfail, if_neg hbreak]
          cases i with
          | zero => rfl
          | succ j =>
              have hlen : j + 1 < (domRemoveLoop fails connected (idx + 1) rest).1.length := by
                simpa using hi
              simpa using ih (idx + 1) j hlen

/-- C2: during teardown, every `removeChild` attempt happens while the
container is connected and targets the container's current first child,
and any failing removal is the last attempt (the loop breaks instead of
retrying). -/
theorem dom_cleanup_removals_safe (st : CleanupState) (o : CleanupOracle) :
    (∀ a ∈ cleanupAttempts st o,
        a.connectedAtAttempt = true ∧ a.childrenAtAttempt.head? = some a.node) ∧
    (∀ i, i + 1 < (cleanupAttempts st o).length →
        ((cleanupAttempts st o).getD i noAttempt).succeeded = true) := by
  rcases cleanupAttempts_cases st o with h | h
  · rw [h]
    unfold domCleanupStep
    split
    · exact ⟨fun a ha => absurd ha (by simp), fun i hi => absurd hi (by simp)⟩
    · split
      · exact ⟨fun a ha => absurd ha (by simp), fun i hi => absurd hi (by simp)⟩
      · rename_i hconn
        have hc : st.refConnected = true := by
          revert hconn
          cases st.refConnected <;> simp
        constructor
        · intro a ha
          have hprops := domRemoveLoop_attempt_props o.removeChildFails
            st.refConnected st.children 0 a ha
          exact ⟨hc ▸ hprops.1, hprops.2⟩
        · intro i hi
          exact domRemoveLoop_stops_on_failure o.removeChildFails st.refConnected
            st.children 0 i hi
  · rw [h]
    exact ⟨fun a ha => absurd ha (by simp), fun i hi => absurd hi (by simp)⟩

theorem dom_cleanup_removals_safe_witness :
    (⟨10, [10, 11], true, true⟩ : DomAttempt).connectedAtAttempt = true ∧
    (⟨10, [10, 11], true, true⟩ : DomAttempt).childrenAtAttempt.head?
      = some (⟨10, [10, 11], true, true⟩ : DomAttempt).node :=
  (dom_cleanup_removals_safe sampleCleanupState sampleCleanupOracle).1
    ⟨10, [10, 11], true, true⟩ (by decide)

/-- C5: across every sequence of mount and unmount calls, neither
lifecycle method raises an exception, and `componentWillUnmount` does
exactly two things: set the unmount flag and defer `cleanup` via
`setTimeout(0)`. -/
theorem lifecycle_methods_never_throw :
    (∀ (evs : List LEvent) (w : World), exceptOk (runLifecycle evs w) = true) ∧
    (∀ w : World, componentWillUnmountRun w =
        .ok ({ w with
                isUnmounted := true
                pending := w.pending ++ [STask.cleanupTask] }, [])) := by
  constructor
  · intro evs
    induction evs with
    | nil => intro w; rfl
    | cons e es ih =>
        intro w
        cases e with
        | mountEv env argsReady u1 u2 => exact ih _
        | unmountEv => exact ih _
  · intro w
    rfl

/-- C6: the unmount flag, once set, is preserved by every lifecycle
transition, and an initialization path that observes it — at entry of
`initializeMapSafely` or `initializeMap`, at either await-resumption
point, or in the catch block — returns without creating a `MapView`,
adding event handlers, or updating React state (the post-`when` resumption
only runs `cleanup`). -/
theorem unmount_flag_monotone_and_guards :
    (∀ env argsReady retries u1 u2,
        initializeMapSafelyRun true argsReady retries env u1 u2 = []) ∧
    (∀ env u1 u2, initializeMap env true u1 u2 = []) ∧
    (∀ env u2, initAfterWhen env true u2 = ([Effect.ranCleanup], none)) ∧
    (∀ env, initAfterGoTo env true = ([], none)) ∧
    (∀ msg now, initCatch true msg now = []) ∧
    (∀ evs w wFin, runLifecycle evs w = .ok wFin → w.isUnmounted = true →
        wFin.isUnmounted = true) := by
  refine ⟨fun _ _ _ _ _ => rfl, fun _ _ _ => rfl, fun _ _ => rfl, fun _ => rfl,
    fun _ _ => rfl, ?_⟩
  intro evs
  induction evs with
  | nil =>
      intro w wFin h hw
      injection h with h2
      exact h2 ▸ hw
  | cons e es ih =>
      intro w wFin h hw
      cases e with
      | mountEv env argsReady u1 u2 => exact ih _ _ h hw
      | unmountEv => exact ih _ _ h rfl

theorem unmount_flag_monotone_and_guards_witness :
    (⟨true, false, [STask.cleanupTask]⟩ : World).isUnmounted = true :=
  unmount_flag_monotone_and_guards.2.2.2.2.2 [LEvent.unmountEv]
    ⟨true, false, []⟩ ⟨true, false, [STask.cleanupTask]⟩ rfl rfl
